import Mathlib

/-!
Verification of the gitGo book service (`main.go`).

The program is a small HTTP CRUD service over one MSSQL table
`bz.dbo.tbl_book`, with an in-memory slice `books` mirroring the table,
an `X-API-Key` auth middleware, a `/health` endpoint and environment
configuration loaded by `loadConfig`.

The embedding below models, from the source:
  - the `Book` struct and the global `books` slice (the Mirror Cache);
  - the database table as an ordered list of rows; the MSSQL behaviour
    of the exact SQL statements the program issues (INSERT with a
    generated identity id and a GETDATE() timestamp, UPDATE/DELETE by id
    with rows-affected counts, SELECT by id, SELECT TOP 1 ORDER BY
    regdate DESC) is modelled with an identity counter `nextId` and a
    monotone clock `clock`;
  - each HTTP handler (`GetBooks`, `GetBook`, `CreateBook`, `UpdateBook`,
    `DeleteBook`, `HealthCheck`) as a function from the decoded request
    and the system state to a response and a new state; driver-level
    failures of `db.Exec`, `RowsAffected` and `QueryRow.Scan` are
    injected through an explicit `Faults` record so that every error
    branch of the Go code is present;
  - the middleware `authMiddleware` and the route table of `main`;
  - `loadConfig` / `getEnv` over an environment `String → String`
    (Go's `os.Getenv` returns `""` for an absent variable).
-/

/-- The `Book` struct of `main.go` (`id`, `title`, `author`, `year`,
`regdate`, with `year` an `int`). -/
structure Book where
  id : String
  title : String
  author : String
  year : Int
  regdate : String
deriving DecidableEq, Repr

/-- A row of `bz.dbo.tbl_book`: the visible `Book` columns plus the
creation instant used by `ORDER BY regdate DESC`, modelled as a natural
number `regClock` (the `regdate` string is rendered from it). -/
structure Row where
  book : Book
  regClock : Nat
deriving DecidableEq, Repr

/-- State of the external database: the ordered table, the next value of
the identity column that generates `id`, and a monotone clock supplying
`GETDATE()`. -/
structure DBState where
  table : List Row
  nextId : Nat
  clock : Nat
deriving DecidableEq, Repr

/-- Rendering of the identity column value as the string the driver
scans into `Book.ID`. -/
def genId (n : Nat) : String := Nat.repr n

/-- Rendering of the `GETDATE()` instant as the string the driver scans
into `Book.Regdate`. -/
def regdateString (c : Nat) : String := "ts-" ++ Nat.repr c

/-- Behaviour of `INSERT INTO bz.dbo.tbl_book (title, author, year, regdate)
VALUES (?, ?, ?, GETDATE())`: only title, author and year come from the
caller; `id` is the generated identity value and `regdate` the current
instant. -/
def dbInsert (title author : String) (year : Int) (s : DBState) : DBState :=
  { table := s.table ++ [⟨⟨genId s.nextId, title, author, year, regdateString s.clock⟩, s.clock⟩]
    nextId := s.nextId + 1
    clock := s.clock + 1 }

/-- Number of table rows whose `id` equals the bound parameter: the
rows-affected count of `UPDATE ... WHERE id = ?` and `DELETE ... WHERE id = ?`. -/
def matchCount (id : String) (t : List Row) : Nat :=
  (t.filter fun r => r.book.id == id).length

/-- Behaviour of `UPDATE bz.dbo.tbl_book SET title = ?, author = ?, year = ?
WHERE id = ?`: every matching row gets the new title/author/year; `id` and
`regdate` columns are not touched. -/
def dbUpdateById (id title author : String) (year : Int) (t : List Row) : List Row :=
  t.map fun r =>
    if r.book.id == id then
      ⟨⟨r.book.id, title, author, year, r.book.regdate⟩, r.regClock⟩
    else r

/-- Behaviour of `DELETE FROM bz.dbo.tbl_book WHERE id = ?`. -/
def dbDeleteById (id : String) (t : List Row) : List Row :=
  t.filter fun r => !(r.book.id == id)

/-- Behaviour of `SELECT id, title, author, year, regdate FROM bz.dbo.tbl_book
WHERE id = ?` read through `QueryRow`: the first matching row, or no row. -/
def selectById (id : String) (t : List Row) : Option Row :=
  t.find? fun r => r.book.id == id

/-- One step of the TOP-1 scan: keep the row with the larger `regClock`
(the earlier row when they tie). -/
def top1Step (acc : Option Row) (r : Row) : Option Row :=
  match acc with
  | Option.none => some r
  | some m => if m.regClock < r.regClock then some r else some m

/-- Behaviour of `SELECT TOP 1 id, title, author, year, regdate FROM
bz.dbo.tbl_book ORDER BY regdate DESC` read through `QueryRow`: a row of
maximal `regClock` (the first such row when several tie), or no row when
the table is empty. -/
def selectTop1ByRegdateDesc (t : List Row) : Option Row :=
  t.foldl top1Step Option.none

/-- Body of the `books` scan loop in `GetBook`: the first cache entry
whose `ID` equals the path id. -/
def cacheFindById (id : String) (cache : List Book) : Option Book :=
  cache.find? fun b => b.id == id

/-- Body of the cache-update loop in `UpdateBook`
(`books[i] = updatedBook; break`): replace the first entry whose `ID`
matches, leave everything else in place. -/
def cacheReplaceFirst (id : String) (nb : Book) : List Book → List Book
  | [] => []
  | b :: bs => if b.id == id then nb :: bs else b :: cacheReplaceFirst id nb bs

/-- Body of the cache-delete loop in `DeleteBook`
(`books = append(books[:i], books[i+1:]...); break`): remove the first
entry whose `ID` matches, preserving the order of the rest. -/
def cacheRemoveFirst (id : String) : List Book → List Book
  | [] => []
  | b :: bs => if b.id == id then bs else b :: cacheRemoveFirst id bs

/-- JSON bodies the handlers write: a single book, the book array, or a
one-or-two-field string object (error, message, health). -/
inductive Body where
  | book (b : Book)
  | bookList (bs : List Book)
  | fields (kv : List (String × String))
deriving DecidableEq, Repr

/-- An HTTP response: status code and JSON body.  A Go handler that never
calls `WriteHeader` responds 200. -/
structure Resp where
  status : Nat
  body : Body
deriving DecidableEq, Repr

/-- Error body `{"error": msg}`. -/
def errBody (msg : String) : Body := Body.fields [("error", msg)]

/-- The combined state the handlers read and write: the database and the
global `books` slice. -/
structure SysState where
  db : DBState
  cache : List Book
deriving DecidableEq, Repr

/-- Driver-level failures injected into one request: `execFail` makes
`db.Exec` return an error (the statement does not run), `rowsFail` makes
`result.RowsAffected()` return an error, `queryFail` makes the
`QueryRow(...).Scan(...)` re-read return an error. -/
structure Faults where
  execFail : Bool
  rowsFail : Bool
  queryFail : Bool
deriving DecidableEq, Repr

/-- Fault-free request. -/
def Faults.none : Faults := ⟨false, false, false⟩

/-- Handler `GetBooks`: encode the whole `books` slice, status 200. -/
def GetBooksH (st : SysState) : Resp :=
  ⟨200, Body.bookList st.cache⟩

/-- Handler `GetBook`: scan `books` for the path id; 200 with the first
match, else 404. -/
def GetBookH (id : String) (st : SysState) : Resp :=
  match cacheFindById id st.cache with
  | some b => ⟨200, Body.book b⟩
  | none => ⟨404, errBody "책을 찾을 수 없습니다"⟩

/-- Handler `CreateBook`.  The request body is the decoded `Book`
(`none` when `json.Decode` fails).  Mirrors the Go control flow: 400 on
decode failure; INSERT (only title/author/year are bound); 500 when the
INSERT fails; re-read by `SELECT TOP 1 ... ORDER BY regdate DESC`; 500
when that read fails (driver error or empty table); append the re-read
row to `books`; 201 with the re-read row. -/
def CreateBookH (body : Option Book) (f : Faults) (st : SysState) : Resp × SysState :=
  match body with
  | Option.none => (⟨400, errBody "잘못된 요청 형식입니다"⟩, st)
  | some book =>
    if f.execFail then
      (⟨500, errBody "책 정보 추가 실패"⟩, st)
    else
      let db2 := dbInsert book.title book.author book.year st.db
      if f.queryFail then
        (⟨500, errBody "추가된 책 정보 조회 실패"⟩, ⟨db2, st.cache⟩)
      else
        match selectTop1ByRegdateDesc db2.table with
        | Option.none => (⟨500, errBody "추가된 책 정보 조회 실패"⟩, ⟨db2, st.cache⟩)
        | some row => (⟨201, Body.book row.book⟩, ⟨db2, st.cache ++ [row.book]⟩)

/-- Handler `UpdateBook`.  Mirrors the Go control flow: 400 on decode
failure; UPDATE by path id; 500 when the UPDATE fails; 500 when
`RowsAffected` fails; 404 when rows-affected is 0; re-read the row by id;
500 when that read fails; replace the first matching cache entry; 200
with the re-read row. -/
def UpdateBookH (id : String) (body : Option Book) (f : Faults) (st : SysState) :
    Resp × SysState :=
  match body with
  | Option.none => (⟨400, errBody "잘못된 요청 형식입니다"⟩, st)
  | some book =>
    if f.execFail then
      (⟨500, errBody "책 정보 수정 실패"⟩, st)
    else
      let db2 : DBState :=
        ⟨dbUpdateById id book.title book.author book.year st.db.table,
          st.db.nextId, st.db.clock⟩
      if f.rowsFail then
        (⟨500, errBody "수정 결과 확인 실패"⟩, ⟨db2, st.cache⟩)
      else if matchCount id st.db.table = 0 then
        (⟨404, errBody "수정할 책을 찾을 수 없습니다"⟩, ⟨db2, st.cache⟩)
      else if f.queryFail then
        (⟨500, errBody "수정된 책 정보 조회 실패"⟩, ⟨db2, st.cache⟩)
      else
        match selectById id db2.table with
        | Option.none => (⟨500, errBody "수정된 책 정보 조회 실패"⟩, ⟨db2, st.cache⟩)
        | some row =>
          (⟨200, Body.book row.book⟩, ⟨db2, cacheReplaceFirst id row.book st.cache⟩)

/-- Handler `DeleteBook`.  Mirrors the Go control flow: DELETE by path
id; 500 when the DELETE fails; 500 when `RowsAffected` fails; 404 when
rows-affected is 0; remove the first matching cache entry; 200 with a
confirmation message. -/
def DeleteBookH (id : String) (f : Faults) (st : SysState) : Resp × SysState :=
  if f.execFail then
    (⟨500, errBody "책 삭제 실패"⟩, st)
  else
    let db2 : DBState :=
      ⟨dbDeleteById id st.db.table, st.db.nextId, st.db.clock⟩
    if f.rowsFail then
      (⟨500, errBody "삭제 결과 확인 실패"⟩, ⟨db2, st.cache⟩)
    else if matchCount id st.db.table = 0 then
      (⟨404, errBody "삭제할 책을 찾을 수 없습니다"⟩, ⟨db2, st.cache⟩)
    else
      (⟨200, Body.fields [("message", "책이 성공적으로 삭제되었습니다")]⟩,
        ⟨db2, cacheRemoveFirst id st.cache⟩)

/-- Handler `HealthCheck`: always 200 with `{"status": "healthy",
"time": now}`; `now` is the formatted current time. -/
def HealthCheckH (now : String) : Resp :=
  ⟨200, Body.fields [("status", "healthy"), ("time", now)]⟩

/-- The check `authMiddleware` performs before calling the wrapped
handler.  `reqKey` is `r.Header.Get("X-API-Key")` (the empty string when
the header is absent).  `some resp` means the middleware answers `resp`
itself; `none` means it forwards the request. -/
def authCheck (apiKey reqKey : String) : Option Resp :=
  if reqKey == "" then some ⟨401, errBody "API 키가 필요합니다"⟩
  else if reqKey != apiKey then some ⟨401, errBody "유효하지 않은 API 키입니다"⟩
  else Option.none

/-- `authMiddleware(apiKey)` applied to a handler: on rejection the
response is the middleware's and the handler never runs (the state is
untouched); otherwise the handler runs on the unchanged request. -/
def withAuth (apiKey reqKey : String) (handler : SysState → Resp × SysState)
    (st : SysState) : Resp × SysState :=
  match authCheck apiKey reqKey with
  | some r => (r, st)
  | Option.none => handler st

/-- The HTTP methods used by the route table. -/
inductive Method where
  | GET
  | POST
  | PUT
  | DELETE
deriving DecidableEq, Repr

/-- One `router.HandleFunc` registration: method, path pattern, and
whether the handler is wrapped in `auth`. -/
structure RouteEntry where
  method : Method
  pattern : String
  authRequired : Bool
deriving DecidableEq, Repr

/-- The route table registered in `main`: `/health` is the only route
not wrapped in the auth middleware. -/
def routes : List RouteEntry :=
  [⟨Method.GET, "/health", false⟩,
   ⟨Method.GET, "/books", true⟩,
   ⟨Method.GET, "/books/{id}", true⟩,
   ⟨Method.POST, "/books", true⟩,
   ⟨Method.PUT, "/books/{id}", true⟩,
   ⟨Method.DELETE, "/books/{id}", true⟩]

/-- The `/health` registration. -/
def healthRoute : RouteEntry := ⟨Method.GET, "/health", false⟩

/-- `HealthCheck` as a state-passing handler (it touches no state). -/
def healthHandler (now : String) : SysState → Resp × SysState :=
  fun st => (HealthCheckH now, st)

/-- Dispatch through one registered route, as `main` wires it: a route
with `authRequired` goes through `authMiddleware(apiKey)`, the others
call the handler directly. -/
def applyRoute (apiKey : String) (re : RouteEntry) (reqKey : String)
    (handler : SysState → Resp × SysState) (st : SysState) : Resp × SysState :=
  if re.authRequired then withAuth apiKey reqKey handler st else handler st

/-- The `Config` struct filled by `loadConfig`. -/
structure Config where
  DBServer : String
  DBUser : String
  DBPassword : String
  DBPort : String
  DBName : String
  APIKey : String
  Port : String
deriving DecidableEq, Repr

/-- `getEnv`: the environment value when non-empty, else the default.
The environment is a total function, `os.Getenv` style: an unset
variable reads as `""`. -/
def getEnv (env : String → String) (key defaultValue : String) : String :=
  if env key != "" then env key else defaultValue

/-- `loadConfig`: fill the `Config` from the environment with the
defaults of the source (`DB_PORT` → "1433", `PORT` → "8000"), then
refuse to start (`log.Fatal`, modelled as `none`) when any of
`DB_SERVER`, `DB_USER`, `DB_PASSWORD`, `DB_NAME`, `API_KEY` is empty. -/
def loadConfig (env : String → String) : Option Config :=
  let config : Config :=
    ⟨getEnv env "DB_SERVER" "",
     getEnv env "DB_USER" "",
     getEnv env "DB_PASSWORD" "",
     getEnv env "DB_PORT" "1433",
     getEnv env "DB_NAME" "",
     getEnv env "API_KEY" "",
     getEnv env "PORT" "8000"⟩
  if config.DBServer == "" || config.DBUser == "" || config.DBPassword == "" ||
      config.DBName == "" || config.APIKey == "" then
    Option.none
  else
    some config

/-- The address `main` passes to `ListenAndServe`: ":" + config.Port. -/
def listenAddr (config : Config) : String := ":" ++ config.Port

/-- Realizability of a database state: every row was created at an
instant strictly before the current `GETDATE()` clock.  Every state of
the real table satisfies this (timestamps never come from the future). -/
def ClockBounded (s : DBState) : Prop :=
  ∀ r ∈ s.table, r.regClock < s.clock

/-- Realizability of a cache relative to the database: every cached id
that is a rendered identity value was generated before the current
counter.  Every cache the program ever builds satisfies this, because
each cached book was scanned out of the table. -/
def CacheIdsBounded (s : DBState) (cache : List Book) : Prop :=
  ∀ b ∈ cache, ∀ k, b.id = genId k → k < s.nextId

/-- The mirror invariant of the design: the `books` slice holds exactly
the table's books, in table order. -/
def Mirror (s : DBState) (cache : List Book) : Prop :=
  cache = s.table.map Row.book

/-- Uniqueness of the identity column: no two table rows share an id. -/
def TableIdsNodup (s : DBState) : Prop :=
  (s.table.map fun r => r.book.id).Nodup

/-! ### Helper lemmas about the building blocks -/

theorem toDigitsCore_ne_nil (b : Nat) :
    ∀ (f n : Nat) (ds : List Char), Nat.toDigitsCore b (f + 1) n ds ≠ [] := by
  intro f
  induction f with
  | zero =>
    intro n ds
    simp only [Nat.toDigitsCore]
    split
    · simp
    · simp [Nat.toDigitsCore]
  | succ f ih =>
    intro n ds
    simp only [Nat.toDigitsCore]
    split
    · simp
    · exact ih (n / b) (Nat.digitChar (n % b) :: ds)

theorem genId_ne_empty (n : Nat) : genId n ≠ "" := by
  intro h
  have h2 : Nat.toDigits 10 n = [] := by
    have h3 := congrArg String.data h
    simpa [genId, Nat.repr, List.asString] using h3
  exact toDigitsCore_ne_nil 10 n n [] h2

theorem top1Step_ne_none (acc : Option Row) (r : Row) : top1Step acc r ≠ Option.none := by
  cases acc with
  | none => simp [top1Step]
  | some m =>
    simp only [top1Step]
    split <;> simp

theorem foldl_top1_eq_none (t : List Row) :
    ∀ acc, t.foldl top1Step acc = Option.none → acc = Option.none ∧ t = [] := by
  induction t with
  | nil => exact fun acc h => ⟨h, rfl⟩
  | cons x xs ih =>
    intro acc h
    simp only [List.foldl_cons] at h
    rcases ih (top1Step acc x) h with ⟨h1, h2⟩
    exact absurd h1 (top1Step_ne_none acc x)

theorem foldl_top1_mem (t : List Row) :
    ∀ acc m, t.foldl top1Step acc = some m → acc = some m ∨ m ∈ t := by
  induction t with
  | nil => exact fun acc m h => Or.inl h
  | cons x xs ih =>
    intro acc m h
    simp only [List.foldl_cons] at h
    rcases ih (top1Step acc x) m h with h1 | h2
    · cases acc with
      | none =>
        simp only [top1Step, Option.some.injEq] at h1
        exact Or.inr (by simp [h1])
      | some a =>
        simp only [top1Step] at h1
        split at h1
        · simp only [Option.some.injEq] at h1
          exact Or.inr (by simp [h1])
        · exact Or.inl h1
    · exact Or.inr (List.mem_cons_of_mem x h2)

theorem foldl_top1_keep (m : Row) :
    ∀ t : List Row, (∀ x ∈ t, x.regClock < m.regClock) →
      t.foldl top1Step (some m) = some m := by
  intro t
  induction t with
  | nil => intro _; rfl
  | cons x xs ih =>
    intro hall
    have hx : x.regClock < m.regClock := hall x (List.mem_cons_self x xs)
    simp only [List.foldl_cons, top1Step]
    rw [if_neg (by omega)]
    exact ih fun y hy => hall y (List.mem_cons_of_mem x hy)

theorem selectTop1_append_fresh (t : List Row) (r : Row)
    (hall : ∀ x ∈ t, x.regClock < r.regClock) :
    selectTop1ByRegdateDesc (t ++ [r]) = some r := by
  unfold selectTop1ByRegdateDesc
  rw [List.foldl_append]
  cases h : t.foldl top1Step Option.none with
  | none => simp [List.foldl, top1Step]
  | some m =>
    rcases foldl_top1_mem t Option.none m h with h1 | h2
    · exact absurd h1.symm (Option.some_ne_none m)
    · have hm : m.regClock < r.regClock := hall m h2
      simp [List.foldl, top1Step, hm]

theorem selectTop1_append_ne_none (t : List Row) (r : Row) :
    selectTop1ByRegdateDesc (t ++ [r]) ≠ Option.none := by
  intro h
  rcases foldl_top1_eq_none (t ++ [r]) Option.none h with ⟨-, h2⟩
  simp at h2

theorem matchCount_eq_zero_iff (id : String) (t : List Row) :
    matchCount id t = 0 ↔ ∀ r ∈ t, r.book.id ≠ id := by
  simp [matchCount, List.length_eq_zero, List.filter_eq_nil_iff]

theorem selectById_eq_none_iff (id : String) (t : List Row) :
    selectById id t = Option.none ↔ ∀ r ∈ t, r.book.id ≠ id := by
  simp [selectById, List.find?_eq_none]

theorem selectById_some_id (id : String) (t : List Row) (r : Row)
    (h : selectById id t = some r) : r.book.id = id := by
  have h2 := List.find?_some h
  simpa using h2

theorem selectById_mem (id : String) (t : List Row) (r : Row)
    (h : selectById id t = some r) : r ∈ t :=
  List.mem_of_find?_eq_some h

theorem matchCount_ne_zero (id : String) (t : List Row) (r : Row)
    (h : selectById id t = some r) : matchCount id t ≠ 0 := by
  intro h0
  exact (matchCount_eq_zero_iff id t).mp h0 r (selectById_mem id t r h)
    (selectById_some_id id t r h)

theorem selectById_dbUpdateById (id title author : String) (year : Int) (t : List Row) :
    selectById id (dbUpdateById id title author year t) =
      (selectById id t).map fun r =>
        ⟨⟨r.book.id, title, author, year, r.book.regdate⟩, r.regClock⟩ := by
  induction t with
  | nil => rfl
  | cons x xs ih =>
    by_cases hx : x.book.id = id
    · simp [selectById, dbUpdateById, hx, List.find?_cons_of_pos]
    · simp only [selectById, dbUpdateById, List.map_cons] at ih ⊢
      rw [if_neg (by simp [hx])]
      rw [List.find?_cons_of_neg _ (by simp [hx]), List.find?_cons_of_neg _ (by simp [hx])]
      exact ih

theorem cacheFindById_eq_none_iff (id : String) (cache : List Book) :
    cacheFindById id cache = Option.none ↔ ∀ bk ∈ cache, bk.id ≠ id := by
  simp [cacheFindById, List.find?_eq_none]

theorem cacheFindById_map_book (id : String) (t : List Row) :
    cacheFindById id (t.map Row.book) = (selectById id t).map Row.book := by
  unfold cacheFindById selectById
  rw [List.find?_map]
  rfl

theorem cacheFindById_append_last (id : String) (cache : List Book) (nb : Book)
    (h : ∀ bk ∈ cache, bk.id ≠ id) (hnb : nb.id = id) :
    cacheFindById id (cache ++ [nb]) = some nb := by
  have h1 : cache.find? (fun b => b.id == id) = Option.none :=
    List.find?_eq_none.mpr (by simpa using h)
  simp [cacheFindById, List.find?_append, h1, List.find?, hnb]

theorem cacheFindById_first (id : String) (x : Book) (post : List Book) :
    ∀ pre : List Book, (∀ y ∈ pre, y.id ≠ id) → x.id = id →
      cacheFindById id (pre ++ x :: post) = some x := by
  intro pre
  induction pre with
  | nil =>
    intro _ hx
    simp [cacheFindById, hx]
  | cons y ys ih =>
    intro hpre hx
    have hy : y.id ≠ id := hpre y (List.mem_cons_self y ys)
    have ihh := ih (fun z hz => hpre z (List.mem_cons_of_mem y hz)) hx
    simpa [cacheFindById, hy] using ihh

theorem cacheReplaceFirst_decomp (id : String) (nb x : Book) (post : List Book) :
    ∀ pre : List Book, (∀ y ∈ pre, y.id ≠ id) → x.id = id →
      cacheReplaceFirst id nb (pre ++ x :: post) = pre ++ nb :: post := by
  intro pre
  induction pre with
  | nil =>
    intro _ hx
    simp [cacheReplaceFirst, hx]
  | cons y ys ih =>
    intro hpre hx
    have hy : y.id ≠ id := hpre y (List.mem_cons_self y ys)
    have ihh := ih (fun z hz => hpre z (List.mem_cons_of_mem y hz)) hx
    simp [cacheReplaceFirst, hy, ihh]

theorem cacheRemoveFirst_decomp (id : String) (x : Book) (post : List Book) :
    ∀ pre : List Book, (∀ y ∈ pre, y.id ≠ id) → x.id = id →
      cacheRemoveFirst id (pre ++ x :: post) = pre ++ post := by
  intro pre
  induction pre with
  | nil =>
    intro _ hx
    simp [cacheRemoveFirst, hx]
  | cons y ys ih =>
    intro hpre hx
    have hy : y.id ≠ id := hpre y (List.mem_cons_self y ys)
    have ihh := ih (fun z hz => hpre z (List.mem_cons_of_mem y hz)) hx
    simp [cacheRemoveFirst, hy, ihh]

theorem cacheFindById_some_decomp (id : String) (cache : List Book) (y : Book)
    (h : cacheFindById id cache = some y) :
    y.id = id ∧ ∃ pre post, cache = pre ++ y :: post ∧ ∀ z ∈ pre, z.id ≠ id := by
  unfold cacheFindById at h
  rw [List.find?_eq_some] at h
  obtain ⟨hp, as, bs, hcache, hall⟩ := h
  refine ⟨by simpa using hp, as, bs, hcache, ?_⟩
  intro z hz
  simpa using hall z hz

theorem mem_cacheRemoveFirst_ne (id : String) :
    ∀ cache : List Book, (cache.map Book.id).Nodup →
      ∀ bk ∈ cacheRemoveFirst id cache, bk.id ≠ id := by
  intro cache
  induction cache with
  | nil => intro _ bk h; simp [cacheRemoveFirst] at h
  | cons x xs ih =>
    intro hnd bk hm
    have hnd2 : (x.id :: xs.map Book.id).Nodup := by simpa using hnd
    by_cases hx : x.id = id
    · rw [cacheRemoveFirst, if_pos (by simp [hx])] at hm
      intro hbk
      have hxin : x.id ∈ xs.map Book.id := by
        have : bk.id ∈ xs.map Book.id := List.mem_map_of_mem Book.id hm
        rwa [hbk, ← hx] at this
      exact (List.nodup_cons.mp hnd2).1 hxin
    · rw [cacheRemoveFirst, if_neg (by simp [hx])] at hm
      rcases List.mem_cons.mp hm with rfl | hm2
      · exact hx
      · exact ih (List.nodup_cons.mp hnd2).2 bk hm2

/-! ### Claim theorems -/

/-- C2: for every request to a protected endpoint, a missing
`X-API-Key` header (read as `""`) or any value different from the
configured secret makes `authMiddleware` answer 401 without invoking the
wrapped handler, leaving cache and table untouched; a header exactly
equal to the secret forwards the request to the handler unchanged.  The
secret is non-empty in every run because `loadConfig` refuses an empty
`API_KEY`, which the last conjunct records. -/
theorem auth_gate_contract (apiKey reqKey : String)
    (handler : SysState → Resp × SysState) (st : SysState) :
    (reqKey ≠ apiKey →
      (withAuth apiKey reqKey handler st).1.status = 401 ∧
      (withAuth apiKey reqKey handler st).2 = st) ∧
    (apiKey ≠ "" → reqKey = apiKey → withAuth apiKey reqKey handler st = handler st) ∧
    (∀ env : String → String, ∀ config : Config,
      loadConfig env = some config → config.APIKey ≠ "") := by
  refine ⟨?_, ?_, ?_⟩
  · intro hne
    by_cases h0 : reqKey = ""
    · simp [withAuth, authCheck, h0]
    · simp [withAuth, authCheck, h0, hne]
  · intro hk he
    simp [withAuth, authCheck, he, hk]
  · intro env config h
    simp only [loadConfig] at h
    split at h
    · exact absurd h (by simp)
    · rename_i hcond
      obtain rfl : _ = config := (Option.some.injEq _ _).mp h
      simp only [Bool.or_eq_true, beq_iff_eq, not_or] at hcond
      exact hcond.2

/-- C2 witness at a concrete secret, wrong key, matching key. -/
theorem auth_gate_contract_witness :
    ("wrong" : String) ≠ "secret" ∧ ("secret" : String) ≠ "" ∧
    (withAuth "secret" "wrong" (fun st => (GetBooksH st, st)) ⟨⟨[], 0, 0⟩, []⟩).1.status = 401 ∧
    (withAuth "secret" "wrong" (fun st => (GetBooksH st, st)) ⟨⟨[], 0, 0⟩, []⟩).2 = ⟨⟨[], 0, 0⟩, []⟩ ∧
    withAuth "secret" "secret" (fun st => (GetBooksH st, st)) ⟨⟨[], 0, 0⟩, []⟩ =
      (fun st => (GetBooksH st, st)) ⟨⟨[], 0, 0⟩, []⟩ :=
  ⟨by decide, by decide,
   ((auth_gate_contract "secret" "wrong" (fun st => (GetBooksH st, st)) ⟨⟨[], 0, 0⟩, []⟩).1
      (by decide)).1,
   ((auth_gate_contract "secret" "wrong" (fun st => (GetBooksH st, st)) ⟨⟨[], 0, 0⟩, []⟩).1
      (by decide)).2,
   (auth_gate_contract "secret" "secret" (fun st => (GetBooksH st, st)) ⟨⟨[], 0, 0⟩, []⟩).2.1
      (by decide) rfl⟩

/-- C3: an update or delete whose path id matches no table row (so
rows-affected is 0) answers 404 and leaves the cache exactly as it was. -/
theorem update_delete_missing_id_404 (s : DBState) (cache : List Book)
    (id : String) (b : Book) (f : Faults)
    (hexec : f.execFail = false) (hrows : f.rowsFail = false)
    (hmiss : ∀ r ∈ s.table, r.book.id ≠ id) :
    (UpdateBookH id (some b) f ⟨s, cache⟩).1.status = 404 ∧
    (UpdateBookH id (some b) f ⟨s, cache⟩).2.cache = cache ∧
    (DeleteBookH id f ⟨s, cache⟩).1.status = 404 ∧
    (DeleteBookH id f ⟨s, cache⟩).2.cache = cache := by
  have h0 : matchCount id s.table = 0 := (matchCount_eq_zero_iff id s.table).mpr hmiss
  refine ⟨?_, ?_, ?_, ?_⟩ <;> simp [UpdateBookH, DeleteBookH, hexec, hrows, h0]

/-- C3 witness: a one-row table and an id that is not in it. -/
theorem update_delete_missing_id_404_witness :
    (∀ r ∈ [(⟨⟨"1", "t", "a", 1, "r"⟩, 0⟩ : Row)], r.book.id ≠ "9") ∧
    (UpdateBookH "9" (some ⟨"", "T", "A", 2, ""⟩) Faults.none
      ⟨⟨[⟨⟨"1", "t", "a", 1, "r"⟩, 0⟩], 2, 1⟩, [⟨"1", "t", "a", 1, "r"⟩]⟩).1.status = 404 ∧
    (UpdateBookH "9" (some ⟨"", "T", "A", 2, ""⟩) Faults.none
      ⟨⟨[⟨⟨"1", "t", "a", 1, "r"⟩, 0⟩], 2, 1⟩, [⟨"1", "t", "a", 1, "r"⟩]⟩).2.cache =
      [⟨"1", "t", "a", 1, "r"⟩] ∧
    (DeleteBookH "9" Faults.none
      ⟨⟨[⟨⟨"1", "t", "a", 1, "r"⟩, 0⟩], 2, 1⟩, [⟨"1", "t", "a", 1, "r"⟩]⟩).1.status = 404 ∧
    (DeleteBookH "9" Faults.none
      ⟨⟨[⟨⟨"1", "t", "a", 1, "r"⟩, 0⟩], 2, 1⟩, [⟨"1", "t", "a", 1, "r"⟩]⟩).2.cache =
      [⟨"1", "t", "a", 1, "r"⟩] := by
  refine ⟨by decide, ?_⟩
  exact update_delete_missing_id_404 ⟨[⟨⟨"1", "t", "a", 1, "r"⟩, 0⟩], 2, 1⟩
    [⟨"1", "t", "a", 1, "r"⟩] "9" ⟨"", "T", "A", 2, ""⟩ Faults.none rfl rfl (by decide)

/-- C8: the `/health` route is registered without the auth middleware,
and the health handler answers 200 with a `status` and a `time` field no
matter what key is configured, even on a request with no `X-API-Key`
header. -/
theorem health_route_open :
    healthRoute ∈ routes ∧
    healthRoute.authRequired = false ∧
    ∀ (apiKey now : String) (st : SysState),
      applyRoute apiKey healthRoute "" (healthHandler now) st =
        (⟨200, Body.fields [("status", "healthy"), ("time", now)]⟩, st) := by
  refine ⟨by simp [routes, healthRoute], rfl, ?_⟩
  intro apiKey now st
  rfl

/-- C9: `loadConfig` refuses to start (returns nothing) when the
database host, user, password, name or the API secret reads empty, and
when the `PORT` variable is unset a successful load yields port "8000",
so `main` listens on ":8000". -/
theorem config_startup_contract (env : String → String) :
    ((env "DB_SERVER" = "" ∨ env "DB_USER" = "" ∨ env "DB_PASSWORD" = "" ∨
        env "DB_NAME" = "" ∨ env "API_KEY" = "") → loadConfig env = Option.none) ∧
    (∀ config : Config, loadConfig env = some config → env "PORT" = "" →
      config.Port = "8000" ∧ listenAddr config = ":8000") := by
  constructor
  · intro hor
    rcases hor with h | h | h | h | h <;> simp [loadConfig, getEnv, h]
  · intro config h hport
    simp only [loadConfig] at h
    split at h
    · exact absurd h (by simp)
    · obtain rfl : _ = config := (Option.some.injEq _ _).mp h
      constructor
      · simp [getEnv, hport]
      · simp [listenAddr, getEnv, hport]

/-- C9 witness: an empty environment is refused; a full environment
with `PORT` unset listens on ":8000". -/
theorem config_startup_contract_witness :
    ((fun _ : String => "") "DB_SERVER" = "" ∧ loadConfig (fun _ => "") = Option.none) ∧
    (loadConfig (fun k => if k == "PORT" then "" else "v") =
        some ⟨"v", "v", "v", "v", "v", "v", "8000"⟩ ∧
      (fun k : String => if k == "PORT" then "" else "v") "PORT" = "" ∧
      (⟨"v", "v", "v", "v", "v", "v", "8000"⟩ : Config).Port = "8000" ∧
      listenAddr ⟨"v", "v", "v", "v", "v", "v", "8000"⟩ = ":8000") := by
  refine ⟨⟨rfl, ?_⟩, ⟨?_, rfl, ?_, ?_⟩⟩
  · exact (config_startup_contract (fun _ => "")).1 (Or.inl rfl)
  · rfl
  · exact ((config_startup_contract (fun k => if k == "PORT" then "" else "v")).2
      ⟨"v", "v", "v", "v", "v", "v", "8000"⟩ rfl rfl).1
  · exact ((config_startup_contract (fun k => if k == "PORT" then "" else "v")).2
      ⟨"v", "v", "v", "v", "v", "v", "8000"⟩ rfl rfl).2

/-- C10: on any cache contents, even with several entries sharing an id,
the `GetBook` scan answers 200 with the first matching entry in
insertion order; the `UpdateBook` cache loop replaces exactly the first
matching entry, leaving every other entry and the overall order
unchanged; the `DeleteBook` cache loop removes exactly the first
matching entry, preserving the relative order of the rest. -/
theorem cache_first_match_semantics (id : String) (nb x : Book)
    (pre post : List Book) (db0 : DBState)
    (hpre : ∀ y ∈ pre, y.id ≠ id) (hx : x.id = id) :
    GetBookH id ⟨db0, pre ++ x :: post⟩ = ⟨200, Body.book x⟩ ∧
    cacheReplaceFirst id nb (pre ++ x :: post) = pre ++ nb :: post ∧
    cacheRemoveFirst id (pre ++ x :: post) = pre ++ post := by
  refine ⟨?_, cacheReplaceFirst_decomp id nb x post pre hpre hx,
    cacheRemoveFirst_decomp id x post pre hpre hx⟩
  simp [GetBookH, cacheFindById_first id x post pre hpre hx]

/-- C10 witness: a cache with two entries of id "2"; the loops act on
the first one only. -/
theorem cache_first_match_semantics_witness :
    (∀ y ∈ [(⟨"1", "t1", "a1", 1, "r1"⟩ : Book)], y.id ≠ "2") ∧
    GetBookH "2" ⟨⟨[], 0, 0⟩,
        [⟨"1", "t1", "a1", 1, "r1"⟩] ++ ⟨"2", "t2", "a2", 2, "r2"⟩ ::
          [⟨"2", "t3", "a3", 3, "r3"⟩]⟩ =
      ⟨200, Body.book ⟨"2", "t2", "a2", 2, "r2"⟩⟩ ∧
    cacheReplaceFirst "2" ⟨"2", "T", "A", 9, "r2"⟩
        ([⟨"1", "t1", "a1", 1, "r1"⟩] ++ ⟨"2", "t2", "a2", 2, "r2"⟩ ::
          [⟨"2", "t3", "a3", 3, "r3"⟩]) =
      [⟨"1", "t1", "a1", 1, "r1"⟩] ++ ⟨"2", "T", "A", 9, "r2"⟩ :: [⟨"2", "t3", "a3", 3, "r3"⟩] ∧
    cacheRemoveFirst "2"
        ([⟨"1", "t1", "a1", 1, "r1"⟩] ++ ⟨"2", "t2", "a2", 2, "r2"⟩ ::
          [⟨"2", "t3", "a3", 3, "r3"⟩]) =
      [⟨"1", "t1", "a1", 1, "r1"⟩] ++ [⟨"2", "t3", "a3", 3, "r3"⟩] :=
  ⟨by decide,
    cache_first_match_semantics "2" ⟨"2", "T", "A", 9, "r2"⟩ ⟨"2", "t2", "a2", 2, "r2"⟩
      [⟨"1", "t1", "a1", 1, "r1"⟩] [⟨"2", "t3", "a3", 3, "r3"⟩] ⟨[], 0, 0⟩ (by decide) rfl⟩

/-- C1: from any realizable cache/table state (timestamps in the past,
cached ids generated below the identity counter), if a create request
with a valid body succeeds with 201 then the returned book has a
non-empty id and an immediately following get-by-id for that id answers
200 with the identical book. -/
theorem create_get_roundtrip (s : DBState) (cache : List Book)
    (body : Option Book) (f : Faults)
    (hclk : ClockBounded s) (hids : CacheIdsBounded s cache)
    (h201 : (CreateBookH body f ⟨s, cache⟩).1.status = 201) :
    ∃ nb : Book,
      (CreateBookH body f ⟨s, cache⟩).1.body = Body.book nb ∧
      nb.id ≠ "" ∧
      GetBookH nb.id (CreateBookH body f ⟨s, cache⟩).2 = ⟨200, Body.book nb⟩ := by
  cases body with
  | none => simp [CreateBookH] at h201
  | some b =>
    cases hf1 : f.execFail with
    | true => simp [CreateBookH, hf1] at h201
    | false =>
      cases hf2 : f.queryFail with
      | true => simp [CreateBookH, hf1, hf2] at h201
      | false =>
        have hsel : selectTop1ByRegdateDesc (dbInsert b.title b.author b.year s).table =
            some ⟨⟨genId s.nextId, b.title, b.author, b.year, regdateString s.clock⟩, s.clock⟩ := by
          have htab : (dbInsert b.title b.author b.year s).table =
              s.table ++ [⟨⟨genId s.nextId, b.title, b.author, b.year,
                regdateString s.clock⟩, s.clock⟩] := rfl
          rw [htab]
          exact selectTop1_append_fresh s.table _ fun x hx => hclk x hx
        refine ⟨⟨genId s.nextId, b.title, b.author, b.year, regdateString s.clock⟩, ?_, ?_, ?_⟩
        · simp [CreateBookH, hf1, hf2, hsel]
        · exact genId_ne_empty s.nextId
        · have hstate : (CreateBookH (some b) f ⟨s, cache⟩).2 =
              ⟨dbInsert b.title b.author b.year s,
                cache ++ [⟨genId s.nextId, b.title, b.author, b.year, regdateString s.clock⟩]⟩ := by
            simp [CreateBookH, hf1, hf2, hsel]
          rw [hstate]
          have hnomem : ∀ bk ∈ cache, bk.id ≠ genId s.nextId := by
            intro bk hbk heq
            exact absurd (hids bk hbk s.nextId heq) (lt_irrefl s.nextId)
          have hfind := cacheFindById_append_last (genId s.nextId) cache
            ⟨genId s.nextId, b.title, b.author, b.year, regdateString s.clock⟩ hnomem rfl
          simp [GetBookH, hfind]

/-- C1 witness: create on the empty state, fault-free. -/
theorem create_get_roundtrip_witness :
    ClockBounded ⟨[], 0, 0⟩ ∧ CacheIdsBounded ⟨[], 0, 0⟩ [] ∧
    (CreateBookH (some ⟨"zz", "Dune", "Herbert", 1965, "zz"⟩) Faults.none
      ⟨⟨[], 0, 0⟩, []⟩).1.status = 201 ∧
    (∃ nb : Book,
      (CreateBookH (some ⟨"zz", "Dune", "Herbert", 1965, "zz"⟩) Faults.none
        ⟨⟨[], 0, 0⟩, []⟩).1.body = Body.book nb ∧
      nb.id ≠ "" ∧
      GetBookH nb.id (CreateBookH (some ⟨"zz", "Dune", "Herbert", 1965, "zz"⟩) Faults.none
        ⟨⟨[], 0, 0⟩, []⟩).2 = ⟨200, Body.book nb⟩) := by
  refine ⟨?_, ?_, ?_, ?_⟩
  · intro r hr; exact absurd hr (List.not_mem_nil r)
  · intro bk hbk; exact absurd hbk (List.not_mem_nil bk)
  · decide
  · exact create_get_roundtrip ⟨[], 0, 0⟩ [] (some ⟨"zz", "Dune", "Herbert", 1965, "zz"⟩)
      Faults.none (fun r hr => absurd hr (List.not_mem_nil r))
      (fun bk hbk => absurd hbk (List.not_mem_nil bk)) (by decide)

/-- C4: a valid update of an id present in the table answers 200; the
stored row for that id now carries the body's title, author and year
while keeping its id and regdate; the cache entry get-by-id sees carries
the same five fields; and before the update that cache entry was exactly
the table row's book (so its id and regdate are unchanged). -/
theorem update_success_contract (s : DBState) (cache : List Book)
    (id : String) (b : Book) (r0 : Row)
    (hm : Mirror s cache)
    (hex : selectById id s.table = some r0) :
    (UpdateBookH id (some b) Faults.none ⟨s, cache⟩).1.status = 200 ∧
    selectById id (UpdateBookH id (some b) Faults.none ⟨s, cache⟩).2.db.table =
      some ⟨⟨r0.book.id, b.title, b.author, b.year, r0.book.regdate⟩, r0.regClock⟩ ∧
    cacheFindById id (UpdateBookH id (some b) Faults.none ⟨s, cache⟩).2.cache =
      some ⟨r0.book.id, b.title, b.author, b.year, r0.book.regdate⟩ ∧
    cacheFindById id cache = some r0.book := by
  have hcnt : matchCount id s.table ≠ 0 := matchCount_ne_zero id s.table r0 hex
  have hupd : selectById id (dbUpdateById id b.title b.author b.year s.table) =
      some ⟨⟨r0.book.id, b.title, b.author, b.year, r0.book.regdate⟩, r0.regClock⟩ := by
    rw [selectById_dbUpdateById, hex]
    rfl
  have hcache0 : cacheFindById id cache = some r0.book := by
    rw [hm, cacheFindById_map_book, hex]
    rfl
  obtain ⟨hid0, pre, post, hdec, hpre⟩ := cacheFindById_some_decomp id cache r0.book hcache0
  have hred : UpdateBookH id (some b) Faults.none ⟨s, cache⟩ =
      (⟨200, Body.book ⟨r0.book.id, b.title, b.author, b.year, r0.book.regdate⟩⟩,
        ⟨⟨dbUpdateById id b.title b.author b.year s.table, s.nextId, s.clock⟩,
          cacheReplaceFirst id ⟨r0.book.id, b.title, b.author, b.year, r0.book.regdate⟩
            cache⟩) := by
    simp [UpdateBookH, Faults.none, hcnt, hupd]
  have hrepl : cacheReplaceFirst id ⟨r0.book.id, b.title, b.author, b.year, r0.book.regdate⟩
      cache = pre ++ ⟨r0.book.id, b.title, b.author, b.year, r0.book.regdate⟩ :: post := by
    rw [hdec]
    exact cacheReplaceFirst_decomp id _ r0.book post pre hpre hid0
  refine ⟨by rw [hred], by rw [hred]; exact hupd, ?_, hcache0⟩
  rw [hred]
  show cacheFindById id (cacheReplaceFirst id
    ⟨r0.book.id, b.title, b.author, b.year, r0.book.regdate⟩ cache) = _
  rw [hrepl]
  exact cacheFindById_first id _ post pre hpre hid0

/-- C4 witness: update the single row of a one-row state. -/
theorem update_success_contract_witness :
    Mirror ⟨[⟨⟨"7", "t", "a", 1, "r"⟩, 0⟩], 8, 1⟩ [⟨"7", "t", "a", 1, "r"⟩] ∧
    selectById "7" [⟨⟨"7", "t", "a", 1, "r"⟩, 0⟩] = some ⟨⟨"7", "t", "a", 1, "r"⟩, 0⟩ ∧
    (UpdateBookH "7" (some ⟨"", "T2", "A2", 2, ""⟩) Faults.none
      ⟨⟨[⟨⟨"7", "t", "a", 1, "r"⟩, 0⟩], 8, 1⟩, [⟨"7", "t", "a", 1, "r"⟩]⟩).1.status = 200 ∧
    selectById "7" (UpdateBookH "7" (some ⟨"", "T2", "A2", 2, ""⟩) Faults.none
      ⟨⟨[⟨⟨"7", "t", "a", 1, "r"⟩, 0⟩], 8, 1⟩, [⟨"7", "t", "a", 1, "r"⟩]⟩).2.db.table =
      some ⟨⟨"7", "T2", "A2", 2, "r"⟩, 0⟩ ∧
    cacheFindById "7" (UpdateBookH "7" (some ⟨"", "T2", "A2", 2, ""⟩) Faults.none
      ⟨⟨[⟨⟨"7", "t", "a", 1, "r"⟩, 0⟩], 8, 1⟩, [⟨"7", "t", "a", 1, "r"⟩]⟩).2.cache =
      some ⟨"7", "T2", "A2", 2, "r"⟩ ∧
    cacheFindById "7" [⟨"7", "t", "a", 1, "r"⟩] = some ⟨"7", "t", "a", 1, "r"⟩ := by
  refine ⟨rfl, rfl, ?_⟩
  exact update_success_contract ⟨[⟨⟨"7", "t", "a", 1, "r"⟩, 0⟩], 8, 1⟩ [⟨"7", "t", "a", 1, "r"⟩]
    "7" ⟨"", "T2", "A2", 2, ""⟩ ⟨⟨"7", "t", "a", 1, "r"⟩, 0⟩ rfl rfl

/-- C5: deleting an id present in the table answers 200 with the
confirmation message; on the resulting state a get-by-id for that id
answers 404 and the list endpoint's array contains no entry with that
id.  Needs the mirror invariant and uniqueness of table ids, both true
of every state the program builds. -/
theorem delete_success_contract (s : DBState) (cache : List Book)
    (id : String) (r0 : Row)
    (hm : Mirror s cache) (hnd : TableIdsNodup s)
    (hex : selectById id s.table = some r0) :
    (DeleteBookH id Faults.none ⟨s, cache⟩).1.status = 200 ∧
    (DeleteBookH id Faults.none ⟨s, cache⟩).1.body =
      Body.fields [("message", "책이 성공적으로 삭제되었습니다")] ∧
    GetBookH id (DeleteBookH id Faults.none ⟨s, cache⟩).2 =
      ⟨404, errBody "책을 찾을 수 없습니다"⟩ ∧
    GetBooksH (DeleteBookH id Faults.none ⟨s, cache⟩).2 =
      ⟨200, Body.bookList (cacheRemoveFirst id cache)⟩ ∧
    ∀ bk ∈ cacheRemoveFirst id cache, bk.id ≠ id := by
  have hcnt : matchCount id s.table ≠ 0 := matchCount_ne_zero id s.table r0 hex
  have hred : DeleteBookH id Faults.none ⟨s, cache⟩ =
      (⟨200, Body.fields [("message", "책이 성공적으로 삭제되었습니다")]⟩,
        ⟨⟨dbDeleteById id s.table, s.nextId, s.clock⟩, cacheRemoveFirst id cache⟩) := by
    simp [DeleteBookH, Faults.none, hcnt]
  have hcnodup : (cache.map Book.id).Nodup := by
    rw [hm, List.map_map]
    exact hnd
  have habs : ∀ bk ∈ cacheRemoveFirst id cache, bk.id ≠ id :=
    mem_cacheRemoveFirst_ne id cache hcnodup
  have hfind : cacheFindById id (cacheRemoveFirst id cache) = Option.none :=
    (cacheFindById_eq_none_iff id (cacheRemoveFirst id cache)).mpr habs
  refine ⟨by rw [hred], by rw [hred], ?_, by rw [hred]; rfl, habs⟩
  rw [hred]
  simp [GetBookH, hfind]

/-- C5 witness: delete the single row of a one-row state. -/
theorem delete_success_contract_witness :
    Mirror ⟨[⟨⟨"3", "t", "a", 1, "r"⟩, 0⟩], 4, 1⟩ [⟨"3", "t", "a", 1, "r"⟩] ∧
    TableIdsNodup ⟨[⟨⟨"3", "t", "a", 1, "r"⟩, 0⟩], 4, 1⟩ ∧
    selectById "3" [⟨⟨"3", "t", "a", 1, "r"⟩, 0⟩] = some ⟨⟨"3", "t", "a", 1, "r"⟩, 0⟩ ∧
    (DeleteBookH "3" Faults.none
      ⟨⟨[⟨⟨"3", "t", "a", 1, "r"⟩, 0⟩], 4, 1⟩, [⟨"3", "t", "a", 1, "r"⟩]⟩).1.status = 200 ∧
    GetBookH "3" (DeleteBookH "3" Faults.none
      ⟨⟨[⟨⟨"3", "t", "a", 1, "r"⟩, 0⟩], 4, 1⟩, [⟨"3", "t", "a", 1, "r"⟩]⟩).2 =
      ⟨404, errBody "책을 찾을 수 없습니다"⟩ ∧
    ∀ bk ∈ cacheRemoveFirst "3" [(⟨"3", "t", "a", 1, "r"⟩ : Book)], bk.id ≠ "3" := by
  have h := delete_success_contract ⟨[⟨⟨"3", "t", "a", 1, "r"⟩, 0⟩], 4, 1⟩
    [⟨"3", "t", "a", 1, "r"⟩] "3" ⟨⟨"3", "t", "a", 1, "r"⟩, 0⟩ rfl
    (by unfold TableIdsNodup; decide) rfl
  exact ⟨rfl, by unfold TableIdsNodup; decide, rfl, h.1, h.2.2.1, h.2.2.2.2⟩

/-- C6: the create handler's full contract: a malformed body answers 400
with table and cache untouched; any id or regdate in the body is
ignored (only title, author, year reach the INSERT); an INSERT failure
answers 500 with nothing changed; a failing follow-up re-read answers
500 with the row inserted but the cache untouched; and on full success
the re-read row is appended to the cache and returned with 201. -/
theorem create_paths_contract (st : SysState) (b : Book) (f : Faults) :
    CreateBookH Option.none f st = (⟨400, errBody "잘못된 요청 형식입니다"⟩, st) ∧
    (f.execFail = true →
      CreateBookH (some b) f st = (⟨500, errBody "책 정보 추가 실패"⟩, st)) ∧
    (∀ i rd : String,
      CreateBookH (some ⟨i, b.title, b.author, b.year, rd⟩) f st =
        CreateBookH (some b) f st) ∧
    (f.execFail = false → f.queryFail = true →
      CreateBookH (some b) f st =
        (⟨500, errBody "추가된 책 정보 조회 실패"⟩,
          ⟨dbInsert b.title b.author b.year st.db, st.cache⟩)) ∧
    (f.execFail = false → f.queryFail = false →
      ∃ row : Row,
        selectTop1ByRegdateDesc (dbInsert b.title b.author b.year st.db).table = some row ∧
        CreateBookH (some b) f st =
          (⟨201, Body.book row.book⟩,
            ⟨dbInsert b.title b.author b.year st.db, st.cache ++ [row.book]⟩)) := by
  refine ⟨rfl, ?_, ?_, ?_, ?_⟩
  · intro h
    simp [CreateBookH, h]
  · intro i rd
    rfl
  · intro h1 h2
    simp [CreateBookH, h1, h2]
  · intro h1 h2
    have hne := selectTop1_append_ne_none st.db.table
      ⟨⟨genId st.db.nextId, b.title, b.author, b.year, regdateString st.db.clock⟩, st.db.clock⟩
    cases hsel : selectTop1ByRegdateDesc (dbInsert b.title b.author b.year st.db).table with
    | none => exact absurd hsel hne
    | some row => exact ⟨row, rfl, by simp [CreateBookH, h1, h2, hsel]⟩

/-- C6 witness: the four fault configurations on a one-row state. -/
theorem create_paths_contract_witness :
    CreateBookH Option.none ⟨false, false, false⟩ ⟨⟨[], 5, 9⟩, []⟩ =
      (⟨400, errBody "잘못된 요청 형식입니다"⟩, ⟨⟨[], 5, 9⟩, []⟩) ∧
    CreateBookH (some ⟨"", "T", "A", 1, ""⟩) ⟨true, false, false⟩ ⟨⟨[], 5, 9⟩, []⟩ =
      (⟨500, errBody "책 정보 추가 실패"⟩, ⟨⟨[], 5, 9⟩, []⟩) ∧
    CreateBookH (some ⟨"junk", "T", "A", 1, "junk"⟩) ⟨false, false, false⟩ ⟨⟨[], 5, 9⟩, []⟩ =
      CreateBookH (some ⟨"", "T", "A", 1, ""⟩) ⟨false, false, false⟩ ⟨⟨[], 5, 9⟩, []⟩ ∧
    CreateBookH (some ⟨"", "T", "A", 1, ""⟩) ⟨false, false, true⟩ ⟨⟨[], 5, 9⟩, []⟩ =
      (⟨500, errBody "추가된 책 정보 조회 실패"⟩,
        ⟨dbInsert "T" "A" 1 ⟨[], 5, 9⟩, []⟩) ∧
    (∃ row : Row,
      selectTop1ByRegdateDesc (dbInsert "T" "A" 1 ⟨[], 5, 9⟩).table = some row ∧
      CreateBookH (some ⟨"", "T", "A", 1, ""⟩) ⟨false, false, false⟩ ⟨⟨[], 5, 9⟩, []⟩ =
        (⟨201, Body.book row.book⟩, ⟨dbInsert "T" "A" 1 ⟨[], 5, 9⟩, [] ++ [row.book]⟩)) :=
  ⟨(create_paths_contract ⟨⟨[], 5, 9⟩, []⟩ ⟨"", "T", "A", 1, ""⟩ ⟨false, false, false⟩).1,
   (create_paths_contract ⟨⟨[], 5, 9⟩, []⟩ ⟨"", "T", "A", 1, ""⟩ ⟨true, false, false⟩).2.1 rfl,
   (create_paths_contract ⟨⟨[], 5, 9⟩, []⟩ ⟨"", "T", "A", 1, ""⟩ ⟨false, false, false⟩).2.2.1
     "junk" "junk",
   (create_paths_contract ⟨⟨[], 5, 9⟩, []⟩ ⟨"", "T", "A", 1, ""⟩ ⟨false, false, true⟩).2.2.2.1
     rfl rfl,
   (create_paths_contract ⟨⟨[], 5, 9⟩, []⟩ ⟨"", "T", "A", 1, ""⟩ ⟨false, false, false⟩).2.2.2.2
     rfl rfl⟩
